import Mathlib

/-!
Verification of the SLKATV2BI garage manager domain model.

The definitions below shallowly embed the code of src/jss/carro.js and
src/jss/garagem.js.  JavaScript Date values are modelled as timestamps in
milliseconds (Int); an absent or unparseable date is Option.none.  JS numbers
occurring in the modelled code paths are integers and are modelled as Int.
The classes CarroEsportivo, Caminhao and Manutencao are not part of the
sources; where a definition depends on them it is modelled from the spec and
says so in its doc comment.
-/

namespace GaragemApp

/-- Structural model of String.prototype.trim: removes leading and trailing
whitespace.  Defined directly on the character list so that concrete instances
evaluate inside proofs. -/
def trimString (s : String) : String :=
  ⟨((s.data.dropWhile Char.isWhitespace).reverse.dropWhile Char.isWhitespace).reverse⟩

/-- Structural model of String.prototype.toUpperCase. -/
def toUpperString (s : String) : String :=
  ⟨s.data.map Char.toUpper⟩

/-- Vehicle variant discriminant, mirroring the tipoVeiculo tag computed in
CarroBase.toJSON and dispatched on in carregarGaragem. -/
inductive TipoVeiculo
  | carroBase
  | carroEsportivo
  | caminhao
  deriving DecidableEq, Repr

/-- Modelled from the spec: the Manutencao class is not under src/ (only its
callers are).  Per spec section 3/4.1 a record has a date (required, must parse
to a valid instant - none models an unparseable date), a type, a cost and a
description. -/
structure Manutencao where
  data : Option Int
  tipo : String
  custo : Int
  descricao : String
  deriving DecidableEq, Repr

/-- Modelled from the spec: Manutencao.create stores the fields; the cost is
optional and defaults to 0 when absent; invalid inputs do not throw. -/
def Manutencao.create (data : Option Int) (tipo : String) (custo : Option Int)
    (descricao : String) : Manutencao :=
  { data := data, tipo := tipo, custo := custo.getD 0, descricao := descricao }

/-- Modelled from the spec: Manutencao.validar is true iff the date parses to a
real instant and the type is non-empty after trimming (spec sections 3 and 4.1). -/
def Manutencao.validar (m : Manutencao) : Bool :=
  m.data.isSome && ((trimString m.tipo) != "")

/-- Serialized shape of one maintenance record (spec section 6): date as an ISO
string of a valid instant (modelled by its timestamp), type, cost, description. -/
structure ManutJSON where
  data : Int
  tipo : String
  custo : Int
  descricao : String
  deriving DecidableEq, Repr

/-- Modelled from the spec: Manutencao.toJSON returns the plain serialized
structure, or null (none) when the record is invalid (spec section 4.1). -/
def Manutencao.toJSON (m : Manutencao) : Option ManutJSON :=
  match m.data with
  | none => none
  | some d => if trimString m.tipo = "" then none else some ⟨d, m.tipo, m.custo, m.descricao⟩

/-- State of one vehicle.  The variant-specific fields (turboAtivado for
CarroEsportivo, capacidadeCarga and cargaAtual for Caminhao) are flattened into
the one structure and held at their defaults for variants that lack them. -/
structure Veiculo where
  tipo : TipoVeiculo
  id : String
  modelo : String
  cor : String
  imagemSrc : String
  placa : String
  ano : Option Int
  dataVencimentoCNH : Option Int
  velocidade : Int
  ligado : Bool
  historicoManutencao : List Manutencao
  turboAtivado : Bool
  capacidadeCarga : Int
  cargaAtual : Int
  deriving DecidableEq, Repr

/-- JS ano = parseInt(ano) || null normalization: the input is the parseInt
result (none for NaN); a parsed 0 is falsy and collapses to null. -/
def normalizaAno : Option Int → Option Int
  | some a => if a = 0 then none else some a
  | none => none

/-- CarroBase constructor (carro.js lines 13 to 33): throws (none) unless id and
modelo are truthy; trims modelo and cor with falsy fallbacks, defaults the
image, upper-cases the trimmed plate, normalizes ano, keeps the CNH date as
parsed (none when invalid), and starts with velocidade 0, ligado false and an
empty history.  Variant extras are modelled from the spec: CarroEsportivo adds
turboAtivado false; Caminhao adds capacidadeCarga (extra constructor argument)
and cargaAtual 0. -/
def criarVeiculo (tipo : TipoVeiculo) (id modelo cor imagemSrc placa : String)
    (ano : Option Int) (dataVencimentoCNH : Option Int) (capacidadeCarga : Int) :
    Option Veiculo :=
  if id = "" ∨ modelo = "" then none
  else some
    { tipo := tipo
      id := id
      modelo := trimString (if modelo = "" then "Modelo Padrão" else modelo)
      cor := trimString (if cor = "" then "Cor Padrão" else cor)
      imagemSrc := if imagemSrc = "" then "default_car.png" else imagemSrc
      placa := toUpperString (trimString placa)
      ano := normalizaAno ano
      dataVencimentoCNH := dataVencimentoCNH
      velocidade := 0
      ligado := false
      historicoManutencao := []
      turboAtivado := false
      capacidadeCarga := if tipo = TipoVeiculo.caminhao then capacidadeCarga else 0
      cargaAtual := 0 }

/-- Top speed per variant: 200 for CarroBase (carro.js line 72); 250 for
CarroEsportivo and 140 for Caminhao are modelled from the spec since those
subclasses are not under src/. -/
def maxSpeed : TipoVeiculo → Int
  | TipoVeiculo.carroBase => 200
  | TipoVeiculo.carroEsportivo => 250
  | TipoVeiculo.caminhao => 140

/-- CarroBase.ligar (carro.js lines 42 to 48): turns the vehicle on when off;
no state change otherwise. -/
def ligar (v : Veiculo) : Veiculo :=
  if v.ligado then v else { v with ligado := true }

/-- CarroBase.desligar (carro.js lines 55 to 62): when on, turns off and zeroes
the speed; a no-op when already off. -/
def desligar (v : Veiculo) : Veiculo :=
  if v.ligado then { v with ligado := false, velocidade := 0 } else v

/-- Acceleration (carro.js lines 70 to 79 for CarroBase): when on, adds 10 to
the speed capped at the variant top speed; when off, only notifies.  The
CarroEsportivo and Caminhao overrides are modelled from the spec (same fixed
step 10, capped at the variant maxSpeed). -/
def acelerar (v : Veiculo) : Veiculo :=
  if v.ligado then { v with velocidade := min (v.velocidade + 10) (maxSpeed v.tipo) }
  else v

/-- CarroBase.frear (carro.js lines 86 to 92): when moving, subtracts 15 from
the speed floored at 0, regardless of the running state. -/
def frear (v : Veiculo) : Veiculo :=
  if v.velocidade > 0 then { v with velocidade := max (v.velocidade - 15) 0 } else v

/-- One user action among the four speed-related ones. -/
inductive Acao
  | ligar
  | desligar
  | acelerar
  | frear
  deriving DecidableEq, Repr

/-- Dispatch of one action, as in interagir (garagem.js lines 409 to 442). -/
def executarAcao (v : Veiculo) : Acao → Veiculo
  | Acao.ligar => ligar v
  | Acao.desligar => desligar v
  | Acao.acelerar => acelerar v
  | Acao.frear => frear v

/-- A finite sequence of actions applied in order. -/
def executarAcoes (v : Veiculo) (acoes : List Acao) : Veiculo :=
  acoes.foldl executarAcao v

/-- Sort key used by the comparator in CarroBase.adicionarManutencao
(carro.js line 124): the date timestamp, with a missing date falling back to 0
(the epoch). -/
def chaveData (m : Manutencao) : Int :=
  m.data.getD 0

/-- Insertion of one record into a list sorted descending by chaveData. -/
def insereDesc (m : Manutencao) : List Manutencao → List Manutencao
  | [] => [m]
  | x :: xs => if chaveData x ≤ chaveData m then m :: x :: xs else x :: insereDesc m xs

/-- Full re-sort used to model the Array.prototype.sort call on line 124 of
carro.js: sorts the whole history descending by chaveData. -/
def ordenaDesc : List Manutencao → List Manutencao
  | [] => []
  | x :: xs => insereDesc x (ordenaDesc xs)

/-- Decidable check that a history is sorted descending by chaveData. -/
def ordenadaDesc : List Manutencao → Bool
  | [] => true
  | [_] => true
  | x :: y :: r => decide (chaveData y ≤ chaveData x) && ordenadaDesc (y :: r)

/-- CarroBase.adicionarManutencao (carro.js lines 112 to 131): rejects and
leaves the vehicle untouched unless the record is a valid Manutencao; otherwise
pushes it and re-sorts the whole history descending by date (missing dates as
the epoch), returning true. -/
def adicionarManutencao (v : Veiculo) (m : Manutencao) : Bool × Veiculo :=
  if m.validar then
    (true, { v with historicoManutencao := ordenaDesc (v.historicoManutencao ++ [m]) })
  else
    (false, v)

/-- Serialized shape of one vehicle (CarroBase.toJSON, carro.js lines 304 to
339): the variant-specific fields are present only for the matching variant. -/
structure VeiculoJSON where
  id : String
  modelo : String
  cor : String
  placa : String
  ano : Option Int
  dataVencimentoCNH : Option Int
  velocidade : Int
  ligado : Bool
  imagemSrc : String
  tipoVeiculo : TipoVeiculo
  historicoManutencao : List ManutJSON
  turboAtivado : Option Bool
  capacidadeCarga : Option Int
  cargaAtual : Option Int
  deriving DecidableEq, Repr

/-- History serialization from CarroBase.toJSON (carro.js lines 306 to 309):
keep only records that are Manutencao instances passing validar, serialize each
and drop null results. -/
def serializarHistorico (hist : List Manutencao) : List ManutJSON :=
  (hist.filter (fun m => m.validar)).filterMap Manutencao.toJSON

/-- CarroBase.toJSON (carro.js lines 304 to 339): plain serialized object with
the common fields, the variant tag and the variant-specific fields. -/
def veiculoToJSON (v : Veiculo) : VeiculoJSON :=
  { id := v.id
    modelo := v.modelo
    cor := v.cor
    placa := v.placa
    ano := v.ano
    dataVencimentoCNH := v.dataVencimentoCNH
    velocidade := v.velocidade
    ligado := v.ligado
    imagemSrc := v.imagemSrc
    tipoVeiculo := v.tipo
    historicoManutencao := serializarHistorico v.historicoManutencao
    turboAtivado := if v.tipo = TipoVeiculo.carroEsportivo then some v.turboAtivado else none
    capacidadeCarga := if v.tipo = TipoVeiculo.caminhao then some v.capacidadeCarga else none
    cargaAtual := if v.tipo = TipoVeiculo.caminhao then some v.cargaAtual else none }

/-- Maintenance reconstruction in carregarGaragem (garagem.js lines 69 to 71):
a stored record with a falsy date or type is dropped; otherwise a Manutencao is
rebuilt from the stored scalars and kept only when it passes validar.  The
stored date is the ISO string of a valid instant, so only the type can be
falsy. -/
def recriarManutencao (mj : ManutJSON) : Option Manutencao :=
  if mj.tipo = "" then none
  else
    let r := Manutencao.create (some mj.data) mj.tipo (some mj.custo) mj.descricao
    if r.validar then some r else none

/-- Reconstruction of one stored vehicle, the body of the load loop in
carregarGaragem (garagem.js lines 59 to 99): skip when id, modelo or the tag is
falsy; rebuild the valid maintenance records; dispatch on tipoVeiculo to the
matching constructor (Caminhao receiving capacidadeCarga or 0, CarroEsportivo
then restoring turboAtivado or false, Caminhao restoring cargaAtual or 0); and
finally restore velocidade (JS velocidade or 0, the identity on numbers),
ligado (JS ligado or false, the identity on booleans) and the rebuilt
history. -/
def carregarVeiculoEntrada (d : VeiculoJSON) : Option Veiculo :=
  if d.id = "" ∨ d.modelo = "" then none
  else
    let histRecriado := d.historicoManutencao.filterMap recriarManutencao
    let capacidade :=
      match d.tipoVeiculo with
      | TipoVeiculo.caminhao => d.capacidadeCarga.getD 0
      | _ => 0
    match criarVeiculo d.tipoVeiculo d.id d.modelo d.cor d.imagemSrc d.placa d.ano
        d.dataVencimentoCNH capacidade with
    | none => none
    | some v0 =>
      let v1 :=
        match d.tipoVeiculo with
        | TipoVeiculo.carroEsportivo => { v0 with turboAtivado := d.turboAtivado.getD false }
        | TipoVeiculo.caminhao => { v0 with cargaAtual := d.cargaAtual.getD 0 }
        | TipoVeiculo.carroBase => v0
      some { v1 with
        velocidade := d.velocidade
        ligado := d.ligado
        historicoManutencao := histRecriado }

/-- In-memory fleet: the garagem object of garagem.js line 10, modelled as an
association list in property-insertion order (JS object semantics). -/
def Garagem := List (String × Veiculo)

/-- Property read garagem[id]. -/
def buscarVeiculo : List (String × Veiculo) → String → Option Veiculo
  | [], _ => none
  | (k, v) :: r, id => if k = id then some v else buscarVeiculo r id

/-- Property write garagem[id] = v: overwrites in place when the key exists,
appends otherwise. -/
def inserirVeiculo (g : List (String × Veiculo)) (id : String) (v : Veiculo) :
    List (String × Veiculo) :=
  match buscarVeiculo g id with
  | some _ => g.map (fun p => if p.1 = id then (id, v) else p)
  | none => g ++ [(id, v)]

/-- Property delete garagem[id]. -/
def removerVeiculo (g : List (String × Veiculo)) (id : String) :
    List (String × Veiculo) :=
  g.filter (fun p => p.1 != id)

/-- Core of handleAdicionarVeiculo (garagem.js lines 471 to 525): the new
vehicle is put into the map, then salvarGaragem is attempted (its outcome is
the salvarOk oracle); on failure the freshly used key is deleted again. -/
def handleAdicionarVeiculo (g : List (String × Veiculo)) (nId : String)
    (nV : Veiculo) (salvarOk : Bool) : List (String × Veiculo) :=
  let g1 := inserirVeiculo g nId nV
  if salvarOk then g1 else removerVeiculo g1 nId

/-- Values read from the edit form in handleSalvarEdicaoVeiculo (garagem.js
lines 549 to 556): ano is the parseInt result, cnh the parsed date or none. -/
structure FormEdicao where
  modelo : String
  cor : String
  placa : String
  ano : Option Int
  cnh : Option Int
  deriving DecidableEq, Repr

/-- Field updates of handleSalvarEdicaoVeiculo before the image handling
(garagem.js lines 549 to 564): each field is overwritten when it differs from
the form value; the model only when the trimmed form value is non-empty. -/
def aplicarEdicaoCampos (v : Veiculo) (f : FormEdicao) : Veiculo :=
  let nMod := trimString f.modelo
  let nCor := trimString f.cor
  let nPla := toUpperString (trimString f.placa)
  let nAno := normalizaAno f.ano
  let v1 := if nMod ≠ "" ∧ v.modelo ≠ nMod then { v with modelo := nMod } else v
  let v2 := if v1.cor ≠ nCor then { v1 with cor := nCor } else v1
  let v3 := if v2.placa ≠ nPla then { v2 with placa := nPla } else v2
  let v4 := if v3.ano ≠ nAno then { v3 with ano := nAno } else v3
  if v4.dataVencimentoCNH ≠ f.cnh then { v4 with dataVencimentoCNH := f.cnh } else v4

/-- Core of handleSalvarEdicaoVeiculo (garagem.js lines 537 to 637) acting on
one vehicle: the text and date fields are applied first; when a new image was
read (novaImagem) and differs from the current one, imagemSrc is overwritten
and salvarGaragem attempted (outcome salvarOk); on failure, imagemSrc alone is
reverted to its previous value. -/
def handleSalvarEdicaoVeiculo (v : Veiculo) (f : FormEdicao)
    (novaImagem : Option String) (salvarOk : Bool) : Veiculo :=
  let v1 := aplicarEdicaoCampos v f
  match novaImagem with
  | none => v1
  | some img =>
    if v1.imagemSrc = img then v1
    else
      let v2 := { v1 with imagemSrc := img }
      if salvarOk then v2 else { v2 with imagemSrc := v1.imagemSrc }

/-- Content stored under GARAGEM_KEY: either a blob that fails JSON.parse or a
well-formed map of serialized vehicles. -/
inductive Blob
  | corrompido
  | valido (entries : List (String × VeiculoJSON))
  deriving DecidableEq, Repr

/-- LocalStorage restricted to GARAGEM_KEY: none when the key is absent. -/
structure ArmazenamentoLocal where
  garagemData : Option Blob
  deriving DecidableEq, Repr

/-- Whole-map serialization done by JSON.stringify(garagem) in salvarGaragem
(garagem.js line 28). -/
def serializarGaragem (g : List (String × Veiculo)) : List (String × VeiculoJSON) :=
  g.map (fun p => (p.1, veiculoToJSON p.2))

/-- salvarGaragem (garagem.js lines 25 to 41): writes the serialized map under
the key and returns true, or leaves the storage unchanged and returns false
when the write fails (the outcome is the salvarOk oracle). -/
def salvarGaragem (salvarOk : Bool) (st : ArmazenamentoLocal)
    (g : List (String × Veiculo)) : ArmazenamentoLocal :=
  if salvarOk then { garagemData := some (Blob.valido (serializarGaragem g)) } else st

/-- Load loop of carregarGaragem over a parsed map (garagem.js lines 59 to
100): each entry is reconstructed independently and invalid ones are skipped. -/
def carregarEntradas (l : List (String × VeiculoJSON)) : List (String × Veiculo) :=
  l.filterMap (fun p => (carregarVeiculoEntrada p.2).map (fun v => (p.1, v)))

/-- Maintenance records created in inicializarVeiculosPadrao (garagem.js lines
137 and 138); dates are the UTC timestamps of 2023-11-15 and 2024-01-10. -/
def manutPadraoCarro1 : Manutencao :=
  Manutencao.create (some 1700006400000) "Troca Pneu" (some 250) ""

def manutPadraoCam1 : Manutencao :=
  Manutencao.create (some 1704844800000) "Revisão Motor" (some 1200) "Fumaça estranha"

/-- In-memory fleet built by inicializarVeiculosPadrao (garagem.js lines 127 to
152): three example vehicles (CNH dates are the UTC timestamps of 2024-12-31,
2025-06-01 and 2023-01-10) with one maintenance record added to carro1 and one
to cam1 through adicionarManutencao; any construction error resets the map to
empty. -/
def veiculosPadrao : List (String × Veiculo) :=
  match
    criarVeiculo TipoVeiculo.carroBase "carro1" "Fusca" "Azul" "default_car.png"
      "ABC1234" (some 1975) (some 1735603200000) 0,
    criarVeiculo TipoVeiculo.carroEsportivo "carro2" "Maverick" "Laranja"
      "default_sport.png" "DEF5678" (some 1974) (some 1748736000000) 0,
    criarVeiculo TipoVeiculo.caminhao "cam1" "Scania 113" "Vermelho"
      "default_truck.png" "GHI9012" (some 1995) (some 1673308800000) 20000
  with
  | some c1, some c2, some cam =>
    [("carro1", (adicionarManutencao c1 manutPadraoCarro1).2),
     ("carro2", c2),
     ("cam1", (adicionarManutencao cam manutPadraoCam1).2)]
  | _, _, _ => []

/-- carregarGaragem (garagem.js lines 51 to 119): an absent key seeds the
defaults; a blob that fails to parse is removed from storage and the defaults
are seeded; a parsed blob is loaded entry by entry.  Seeding ends with a
salvarGaragem attempt whose outcome is the salvarOk oracle. -/
def carregarGaragem (st : ArmazenamentoLocal) (salvarOk : Bool) :
    ArmazenamentoLocal × List (String × Veiculo) :=
  match st.garagemData with
  | none => (salvarGaragem salvarOk st veiculosPadrao, veiculosPadrao)
  | some Blob.corrompido =>
    let st1 : ArmazenamentoLocal := { garagemData := none }
    (salvarGaragem salvarOk st1 veiculosPadrao, veiculosPadrao)
  | some (Blob.valido entries) => (st, carregarEntradas entries)

/-- Integer ceiling division for a positive divisor, the value of Math.ceil on
the exact quotient; Int division in Lean is Euclidean, hence a floor for
positive divisors. -/
def ceilDiv (a b : Int) : Int :=
  -((-a) / b)

/-- Day difference computed in verificarVencimentoCNH (garagem.js line 803):
Math.ceil of the millisecond difference between the expiry and today at
midnight, divided by 86400000. -/
def diasRestantes (hoje venc : Int) : Int :=
  ceilDiv (venc - hoje) 86400000

/-- Outcome of the CNH classification for one vehicle. -/
inductive AlertaCNH
  | vencida
  | venceEm (dias : Int)
  deriving DecidableEq, Repr

/-- Per-vehicle classification in verificarVencimentoCNH (garagem.js lines 801
to 810): nothing without a valid expiry date; expired when the day difference
is negative; an expiring-soon alert when it is at most 30; nothing otherwise. -/
def alertaCNH (hoje : Int) (dataVencimentoCNH : Option Int) : Option AlertaCNH :=
  match dataVencimentoCNH with
  | none => none
  | some venc =>
    let dias := diasRestantes hoje venc
    if dias < 0 then some AlertaCNH.vencida
    else if dias ≤ 30 then some (AlertaCNH.venceEm dias)
    else none

/-- Normalization invariants that the CarroBase constructor establishes for
every well-behaved input and that carregarGaragem re-establishes on load: both
ends of the round trip agree exactly on vehicles satisfying them. -/
def bemFormado (v : Veiculo) : Prop :=
  v.id ≠ "" ∧ v.modelo ≠ "" ∧ trimString v.modelo = v.modelo ∧
  v.cor ≠ "" ∧ trimString v.cor = v.cor ∧
  v.imagemSrc ≠ "" ∧
  trimString v.placa = v.placa ∧ toUpperString v.placa = v.placa ∧
  v.ano ≠ some 0 ∧
  (v.tipo = TipoVeiculo.carroBase →
    v.turboAtivado = false ∧ v.capacidadeCarga = 0 ∧ v.cargaAtual = 0) ∧
  (v.tipo = TipoVeiculo.carroEsportivo → v.capacidadeCarga = 0 ∧ v.cargaAtual = 0) ∧
  (v.tipo = TipoVeiculo.caminhao → v.turboAtivado = false)

instance (v : Veiculo) : Decidable (bemFormado v) := by
  unfold bemFormado
  infer_instance

/-- Sample vehicle used to instantiate hypotheses of several theorems. -/
def veiculoTeste : Veiculo :=
  { tipo := TipoVeiculo.carroBase
    id := "v1"
    modelo := "Fusca"
    cor := "Azul"
    imagemSrc := "default_car.png"
    placa := "ABC1234"
    ano := some 1975
    dataVencimentoCNH := none
    velocidade := 0
    ligado := false
    historicoManutencao := []
    turboAtivado := false
    capacidadeCarga := 0
    cargaAtual := 0 }

end GaragemApp

namespace GaragemApp

/-! Helper lemmas. -/

theorem tipo_executarAcao (v : Veiculo) (a : Acao) : (executarAcao v a).tipo = v.tipo := by
  cases a <;> simp only [executarAcao, ligar, desligar, acelerar, frear] <;> split <;> rfl

theorem tipo_executarAcoes (v : Veiculo) (acoes : List Acao) :
    (executarAcoes v acoes).tipo = v.tipo := by
  induction acoes generalizing v with
  | nil => rfl
  | cons a rest ih =>
    show (executarAcoes (executarAcao v a) rest).tipo = v.tipo
    rw [ih, tipo_executarAcao]

theorem limites_executarAcao (v : Veiculo) (a : Acao)
    (h0 : 0 ≤ v.velocidade) (h1 : v.velocidade ≤ maxSpeed v.tipo) :
    0 ≤ (executarAcao v a).velocidade ∧
      (executarAcao v a).velocidade ≤ maxSpeed (executarAcao v a).tipo := by
  have hmax : 0 ≤ maxSpeed v.tipo := by
    cases h : v.tipo <;> simp [maxSpeed]
  cases a <;>
    simp only [executarAcao, ligar, desligar, acelerar, frear] <;>
    split <;>
    simp_all <;>
    omega

theorem parado_executarAcao (v : Veiculo) (a : Acao)
    (h : v.ligado = false → v.velocidade = 0) :
    (executarAcao v a).ligado = false → (executarAcao v a).velocidade = 0 := by
  cases a <;>
    simp only [executarAcao, ligar, desligar, acelerar, frear] <;>
    split <;>
    simp_all

theorem criarVeiculo_eq_some {t : TipoVeiculo} {id modelo cor imagemSrc placa : String}
    {ano cnh : Option Int} {cap : Int} {v : Veiculo}
    (h : criarVeiculo t id modelo cor imagemSrc placa ano cnh cap = some v) :
    v.velocidade = 0 ∧ v.ligado = false ∧ v.tipo = t := by
  unfold criarVeiculo at h
  split at h
  · cases h
  · cases h
    exact ⟨rfl, rfl, rfl⟩

theorem limites_executarAcoes (acoes : List Acao) (v : Veiculo)
    (h0 : 0 ≤ v.velocidade) (h1 : v.velocidade ≤ maxSpeed v.tipo) :
    0 ≤ (executarAcoes v acoes).velocidade ∧
      (executarAcoes v acoes).velocidade ≤ maxSpeed (executarAcoes v acoes).tipo := by
  induction acoes generalizing v with
  | nil => exact ⟨h0, h1⟩
  | cons a rest ih =>
    obtain ⟨g0, g1⟩ := limites_executarAcao v a h0 h1
    exact ih (executarAcao v a) g0 g1

theorem parado_executarAcoes (acoes : List Acao) (v : Veiculo)
    (h : v.ligado = false → v.velocidade = 0) :
    (executarAcoes v acoes).ligado = false → (executarAcoes v acoes).velocidade = 0 := by
  induction acoes generalizing v with
  | nil => exact h
  | cons a rest ih => exact ih (executarAcao v a) (parado_executarAcao v a h)

/-- C1: for every vehicle and every finite sequence of the actions acelerar,
frear, ligar and desligar applied after construction, the velocidade field
stays within 0 and maxSpeed of the variant (200 for CarroBase, 250 for
CarroEsportivo, 140 for Caminhao). -/
theorem claimC1_velocidade_nos_limites (t : TipoVeiculo)
    (id modelo cor imagemSrc placa : String) (ano cnh : Option Int) (cap : Int)
    (v : Veiculo) (h : criarVeiculo t id modelo cor imagemSrc placa ano cnh cap = some v)
    (acoes : List Acao) :
    0 ≤ (executarAcoes v acoes).velocidade ∧
      (executarAcoes v acoes).velocidade ≤ maxSpeed t := by
  obtain ⟨hv, _, ht⟩ := criarVeiculo_eq_some h
  have hb := limites_executarAcoes acoes v (by rw [hv]) (by
    rw [hv, ht]
    cases t <;> simp [maxSpeed])
  rwa [tipo_executarAcoes, ht] at hb

/-- Witness for C1 at a concrete construction and action sequence. -/
theorem claimC1_witness :
    0 ≤ (executarAcoes veiculoTeste [Acao.ligar, Acao.acelerar, Acao.frear]).velocidade ∧
      (executarAcoes veiculoTeste [Acao.ligar, Acao.acelerar, Acao.frear]).velocidade ≤
        maxSpeed TipoVeiculo.carroBase :=
  claimC1_velocidade_nos_limites TipoVeiculo.carroBase "v1" "Fusca" "Azul"
    "default_car.png" "ABC1234" (some 1975) none 0 veiculoTeste (by decide)
    [Acao.ligar, Acao.acelerar, Acao.frear]

/-- C10: in every state reachable from a freshly constructed vehicle by any
sequence of ligar, desligar, acelerar and frear, ligado being false implies
velocidade is 0. -/
theorem claimC10_desligado_implica_parado (t : TipoVeiculo)
    (id modelo cor imagemSrc placa : String) (ano cnh : Option Int) (cap : Int)
    (v : Veiculo) (h : criarVeiculo t id modelo cor imagemSrc placa ano cnh cap = some v)
    (acoes : List Acao) :
    (executarAcoes v acoes).ligado = false → (executarAcoes v acoes).velocidade = 0 := by
  obtain ⟨hv, hl, _⟩ := criarVeiculo_eq_some h
  exact parado_executarAcoes acoes v (fun _ => hv)

/-- Witness for C10 at a concrete construction and action sequence. -/
theorem claimC10_witness :
    (executarAcoes veiculoTeste [Acao.ligar, Acao.acelerar, Acao.desligar]).velocidade = 0 :=
  claimC10_desligado_implica_parado TipoVeiculo.carroBase "v1" "Fusca" "Azul"
    "default_car.png" "ABC1234" (some 1975) none 0 veiculoTeste (by decide)
    [Acao.ligar, Acao.acelerar, Acao.desligar] (by decide)

/-- C3: adicionarManutencao with an invalid record returns false and leaves the
maintenance history (indeed the whole vehicle) exactly unchanged. -/
theorem claimC3_rejeita_invalida (v : Veiculo) (m : Manutencao)
    (h : m.validar = false) : adicionarManutencao v m = (false, v) := by
  simp [adicionarManutencao, h]

/-- Sample record whose tipo is blank after trimming, hence invalid. -/
def manutSemTipo : Manutencao :=
  Manutencao.create (some 1700006400000) "   " (some 100) ""

/-- Witness for C3 at a concrete vehicle and invalid record. -/
theorem claimC3_witness : adicionarManutencao veiculoTeste manutSemTipo = (false, veiculoTeste) :=
  claimC3_rejeita_invalida veiculoTeste manutSemTipo (by decide)

/-- Stored entry whose scalars claim velocidade 50 with ligado false, as a
hand-written storage blob may. -/
def dadosDesligadoRapido : VeiculoJSON :=
  { id := "x1"
    modelo := "Fusca"
    cor := "Azul"
    placa := "ABC1234"
    ano := some 1975
    dataVencimentoCNH := none
    velocidade := 50
    ligado := false
    imagemSrc := "default_car.png"
    tipoVeiculo := TipoVeiculo.carroBase
    historicoManutencao := []
    turboAtivado := none
    capacidadeCarga := none
    cargaAtual := none }

/-- Vehicle state reached by loading dadosDesligadoRapido. -/
def veiculoDesligadoRapido : Veiculo :=
  { veiculoTeste with id := "x1", velocidade := 50 }

/-- C9 counterexample: carregarGaragem restores velocidade and ligado from the
stored scalars without cross-checking them, so a vehicle that is off at
velocidade 50 exists; desligar on it is a no-op and its speed stays 50, not
0. -/
theorem claimC9_counterexample :
    carregarVeiculoEntrada dadosDesligadoRapido = some veiculoDesligadoRapido ∧
      (desligar veiculoDesligadoRapido).velocidade ≠ 0 := by
  constructor
  · decide
  · decide

/-- C9 amended: desligar results in velocidade 0 whenever the vehicle is on or
its speed is already 0 - in particular in every state reachable from
construction by the vehicle's own actions. -/
theorem claimC9_desligar_para (v : Veiculo)
    (h : v.ligado = true ∨ v.velocidade = 0) : (desligar v).velocidade = 0 := by
  rcases h with h | h
  · simp [desligar, h]
  · unfold desligar
    split <;> simp [h]

/-- Witness for the amended C9 at a concrete state. -/
theorem claimC9_witness : (desligar (ligar veiculoTeste)).velocidade = 0 :=
  claimC9_desligar_para (ligar veiculoTeste) (Or.inl (by decide))

theorem buscarVeiculo_none_filter (g : List (String × Veiculo)) (id : String)
    (h : buscarVeiculo g id = none) : g.filter (fun p => p.1 != id) = g := by
  induction g with
  | nil => rfl
  | cons p r ih =>
    obtain ⟨k, v⟩ := p
    by_cases hk : k = id
    · simp [buscarVeiculo, hk] at h
    · simp only [buscarVeiculo, if_neg hk] at h
      simp [hk, ih h]

/-- C5: when the save following an add fails, handleAdicionarVeiculo deletes
the freshly used key again, so the map equals its state before the add
(garagem.js lines 501 to 519).  The generated id is fresh, which the hypothesis
records. -/
theorem claimC5_rollback_do_add (g : List (String × Veiculo)) (nId : String)
    (nV : Veiculo) (h : buscarVeiculo g nId = none) :
    handleAdicionarVeiculo g nId nV false = g := by
  unfold handleAdicionarVeiculo inserirVeiculo
  rw [h]
  simp only [if_neg (Bool.false_ne_true), removerVeiculo, List.filter_append]
  rw [buscarVeiculo_none_filter g nId h]
  simp

/-- Witness for C5 at a concrete fleet and vehicle. -/
theorem claimC5_witness : handleAdicionarVeiculo [] "v99" veiculoTeste false = [] :=
  claimC5_rollback_do_add [] "v99" veiculoTeste (by decide)

theorem aplicarEdicaoCampos_imagemSrc (v : Veiculo) (f : FormEdicao) :
    (aplicarEdicaoCampos v f).imagemSrc = v.imagemSrc := by
  unfold aplicarEdicaoCampos
  dsimp only
  repeat first
  | rfl
  | split

/-- C6: when an edit changes the image reference and the following save fails,
imagemSrc is restored to exactly its prior value while the other already
applied field changes of the same edit remain (garagem.js lines 577 to 604). -/
theorem claimC6_reverte_imagem (v : Veiculo) (f : FormEdicao) (img : String)
    (h : img ≠ v.imagemSrc) :
    handleSalvarEdicaoVeiculo v f (some img) false = aplicarEdicaoCampos v f ∧
      (aplicarEdicaoCampos v f).imagemSrc = v.imagemSrc := by
  have him := aplicarEdicaoCampos_imagemSrc v f
  refine ⟨?_, him⟩
  unfold handleSalvarEdicaoVeiculo
  dsimp only
  rw [him, if_neg (fun hEq => h hEq.symm), if_neg (fun hc => Bool.false_ne_true hc), ← him]

/-- Concrete edit form used by the C6 witness. -/
def formTeste : FormEdicao :=
  { modelo := "Fusca 2", cor := "Preto", placa := "xyz9876", ano := some 1980, cnh := none }

/-- Witness for C6 at a concrete vehicle, form and new image. -/
theorem claimC6_witness :
    handleSalvarEdicaoVeiculo veiculoTeste formTeste (some "nova_imagem_base64") false =
        aplicarEdicaoCampos veiculoTeste formTeste ∧
      (aplicarEdicaoCampos veiculoTeste formTeste).imagemSrc = veiculoTeste.imagemSrc :=
  claimC6_reverte_imagem veiculoTeste formTeste "nova_imagem_base64" (by decide)

/-- C7: the per-vehicle CNH classification computes the whole-day ceiling
difference against today at midnight; for an expiry k whole days away it
reports vencida exactly when k is negative, an expiring-soon alert exactly when
0 ≤ k ≤ 30, and nothing from k = 31 on - in particular k = -1 is expired,
k = 30 expiring-soon and k = 31 silent. -/
theorem claimC7_classificacao_cnh (hoje k : Int) :
    alertaCNH hoje (some (hoje + k * 86400000)) =
      (if k < 0 then some AlertaCNH.vencida
       else if k ≤ 30 then some (AlertaCNH.venceEm k) else none) := by
  have hdias : diasRestantes hoje (hoje + k * 86400000) = k := by
    unfold diasRestantes ceilDiv
    omega
  simp [alertaCNH, hdias]

/-- C8: loading a corrupted blob removes the storage key and yields the
default-seeded fleet in memory; the storage afterwards holds either nothing
(when re-saving the defaults also fails) or the serialized defaults, never the
corrupted blob. -/
theorem claimC8_blob_corrompido (salvarOk : Bool) :
    carregarGaragem { garagemData := some Blob.corrompido } salvarOk =
      ((if salvarOk
          then { garagemData := some (Blob.valido (serializarGaragem veiculosPadrao)) }
          else { garagemData := none } : ArmazenamentoLocal),
        veiculosPadrao) := by
  cases salvarOk <;> rfl

theorem ordenadaDesc_insereDesc (m : Manutencao) :
    ∀ l, ordenadaDesc l = true → ordenadaDesc (insereDesc m l) = true := by
  intro l
  induction l with
  | nil => intro _; rfl
  | cons x xs ih =>
    intro h
    cases xs with
    | nil =>
      simp only [insereDesc]
      split
      case isTrue h1 => simp [ordenadaDesc, h1]
      case isFalse h1 =>
        simp only [insereDesc, ordenadaDesc, Bool.and_eq_true, decide_eq_true_eq]
        exact ⟨by omega, trivial⟩
    | cons y ys =>
      have hyx : chaveData y ≤ chaveData x := by
        simp only [ordenadaDesc, Bool.and_eq_true, decide_eq_true_eq] at h
        exact h.1
      have hrest : ordenadaDesc (y :: ys) = true := by
        simp only [ordenadaDesc, Bool.and_eq_true] at h
        exact h.2
      simp only [insereDesc]
      split
      case isTrue h1 =>
        simp only [ordenadaDesc, Bool.and_eq_true, decide_eq_true_eq] at hrest ⊢
        exact ⟨h1, hyx, hrest⟩
      case isFalse h1 =>
        have hs := ih hrest
        simp only [insereDesc] at hs ⊢
        by_cases h2 : chaveData y ≤ chaveData m
        · rw [if_pos h2] at hs ⊢
          simp only [ordenadaDesc, Bool.and_eq_true, decide_eq_true_eq] at hs ⊢
          exact ⟨by omega, hs⟩
        · rw [if_neg h2] at hs ⊢
          simp only [ordenadaDesc, Bool.and_eq_true, decide_eq_true_eq] at hs ⊢
          exact ⟨hyx, hs⟩

theorem ordenadaDesc_ordenaDesc : ∀ l, ordenadaDesc (ordenaDesc l) = true
  | [] => rfl
  | x :: xs => ordenadaDesc_insereDesc x (ordenaDesc xs) (ordenadaDesc_ordenaDesc xs)

/-- C4: after every successful adicionarManutencao call, regardless of the
previous order of the history, historicoManutencao is sorted descending by the
date key (records without a valid date count as the epoch). -/
theorem claimC4_historico_ordenado (v : Veiculo) (m : Manutencao)
    (h : (adicionarManutencao v m).1 = true) :
    ordenadaDesc (adicionarManutencao v m).2.historicoManutencao = true := by
  by_cases hm : m.validar
  · unfold adicionarManutencao
    rw [if_pos hm]
    exact ordenadaDesc_ordenaDesc _
  · unfold adicionarManutencao at h
    rw [if_neg hm] at h
    cases h

/-- Records dated 2030-01-01, 2020-01-01 and 2025-01-01 (UTC timestamps), in
the addition order of the example in the claim. -/
def manut2030 : Manutencao := Manutencao.create (some 1893456000000) "Revisão A" none ""

def manut2020 : Manutencao := Manutencao.create (some 1577836800000) "Revisão B" none ""

def manut2025 : Manutencao := Manutencao.create (some 1735689600000) "Revisão C" none ""

/-- Vehicle that already went through the first two adds of the example. -/
def veiculoHistorico : Veiculo :=
  (adicionarManutencao (adicionarManutencao veiculoTeste manut2030).2 manut2020).2

/-- Witness for C4: the third add of the example (2030, then 2020, then 2025)
leaves the history sorted. -/
theorem claimC4_witness :
    ordenadaDesc (adicionarManutencao veiculoHistorico manut2025).2.historicoManutencao = true :=
  claimC4_historico_ordenado veiculoHistorico manut2025 (by decide)

theorem normalizaAno_id (a : Option Int) (h : a ≠ some 0) : normalizaAno a = a := by
  cases a with
  | none => rfl
  | some x =>
    unfold normalizaAno
    dsimp only
    rw [if_neg (fun hx => h (by rw [hx]))]

theorem historicoRoundTrip (hist : List Manutencao) :
    (serializarHistorico hist).filterMap recriarManutencao =
      hist.filter (fun m => m.validar) := by
  induction hist with
  | nil => rfl
  | cons m rest ih =>
    unfold serializarHistorico at ih ⊢
    by_cases hm : m.validar = true
    · have hmm := hm
      unfold Manutencao.validar at hmm
      rw [Bool.and_eq_true] at hmm
      obtain ⟨hdata, htipo⟩ := hmm
      obtain ⟨d, hd⟩ := Option.isSome_iff_exists.mp hdata
      have htipo' : trimString m.tipo ≠ "" := by simpa using htipo
      have htipone : m.tipo ≠ "" := fun he => htipo' (by rw [he]; rfl)
      have hjson : Manutencao.toJSON m = some ⟨d, m.tipo, m.custo, m.descricao⟩ := by
        unfold Manutencao.toJSON
        rw [hd]
        dsimp only
        rw [if_neg htipo']
      have hcreate : Manutencao.create (some d) m.tipo (some m.custo) m.descricao = m := by
        obtain ⟨mdata, mtipo, mcusto, mdesc⟩ := m
        dsimp only at hd
        subst hd
        rfl
      have hrec : recriarManutencao ⟨d, m.tipo, m.custo, m.descricao⟩ = some m := by
        unfold recriarManutencao
        rw [if_neg htipone]
        dsimp only
        rw [hcreate, if_pos hm]
      rw [List.filter_cons_of_pos hm, List.filterMap_cons, hjson]
      dsimp only
      rw [List.filterMap_cons, hrec]
      dsimp only
      rw [ih]
    · rw [List.filter_cons_of_neg hm, ih]

/-- C2 amended: serializing and then reloading a vehicle reproduces the variant
tag and every common and variant-specific field exactly, with the invalid
maintenance records absent, for every vehicle satisfying the constructor's
normalizations (bemFormado): non-empty trimmed modelo and cor, non-empty image,
trimmed upper-case plate, ano other than 0, and default variant fields for
variants lacking them.  Vehicles violating them exist (a whitespace-only cor
input yields cor equal to the empty string) and do not round-trip. -/
theorem claimC2_round_trip_normalizado (v : Veiculo) (h : bemFormado v) :
    carregarVeiculoEntrada (veiculoToJSON v) =
      some { v with historicoManutencao := v.historicoManutencao.filter (fun m => m.validar) } := by
  obtain ⟨t, vid, vmod, vcor, vimg, vpla, vano, vcnh, vvel, vlig, vhist, vturbo, vcap, vcarga⟩ := v
  obtain ⟨hid, hmod, hmodt, hcor, hcort, himg, hplt, hplu, hano, hbase, hesp, hcam⟩ := h
  simp only at hid hmod hmodt hcor hcort himg hplt hplu hano hbase hesp hcam
  cases t <;>
  · unfold carregarVeiculoEntrada veiculoToJSON criarVeiculo
    dsimp only
    rw [if_neg (by simp [hid, hmod]), if_neg (by simp [hid, hmod])]
    dsimp only
    rw [historicoRoundTrip]
    simp_all [normalizaAno_id]

/-- Vehicle built by criarVeiculo from a whitespace-only cor input: its cor is
the empty string. -/
def veiculoCorVazia : Option Veiculo :=
  criarVeiculo TipoVeiculo.carroBase "c1" "Fusca" " " "default_car.png" "ABC1234"
    (some 1975) none 0

/-- C2 counterexample: a constructor-produced vehicle whose cor is the empty
string (whitespace-only input) serializes to cor equal to the empty string,
which the reloading constructor replaces by Cor Padrão, so cor does not
round-trip bit-for-bit. -/
theorem claimC2_counterexample :
    veiculoCorVazia.map Veiculo.cor = some "" ∧
      (veiculoCorVazia.bind fun v => carregarVeiculoEntrada (veiculoToJSON v)).map Veiculo.cor =
        some "Cor Padrão" := by
  constructor
  · decide
  · decide

/-- Concrete well-formed truck with one valid and one invalid maintenance
record, used to instantiate the round-trip theorem. -/
def caminhaoTeste : Veiculo :=
  { tipo := TipoVeiculo.caminhao
    id := "cam7"
    modelo := "Scania 113"
    cor := "Vermelho"
    imagemSrc := "default_truck.png"
    placa := "GHI9012"
    ano := some 1995
    dataVencimentoCNH := some 1673308800000
    velocidade := 60
    ligado := true
    historicoManutencao := [manut2030, manutSemTipo]
    turboAtivado := false
    capacidadeCarga := 20000
    cargaAtual := 500 }

/-- Witness for the amended C2 at a concrete well-formed vehicle: the reload of
its serialization equals the vehicle with the invalid record dropped. -/
theorem claimC2_witness :
    carregarVeiculoEntrada (veiculoToJSON caminhaoTeste) =
      some { caminhaoTeste with
        historicoManutencao := caminhaoTeste.historicoManutencao.filter (fun m => m.validar) } :=
  claimC2_round_trip_normalizado caminhaoTeste (by decide)

end GaragemApp
